import Mathlib

/-!
Verification of the FIX OEMS trading dashboard (src/app.py and src/app_base.py).

The embedding models the dynamic (JSON / Python) values flowing through the
dashboard callbacks and re-states the pure decision logic of each callback as
a Lean function.  Conventions, chosen to match how the Python code consumes
each value:

* A JSON field value that the code probes with truthiness tests, float(...)
  and string operations is modelled by the type JVal (null, number, string).
  Numbers are rationals; Python floats are a subset of the rationals and none
  of the verified properties depends on binary rounding of the float type.
* A dictionary entry is an Option JVal: none models an absent key, while
  some JVal.null models a key present with value None; the helper jget maps
  both to JVal.null exactly as dict.get does.
* Fields the code only ever consumes as text (clOrdId, symbol, side, status,
  orderType, filter values, trigger ids) are typed Option String; a non-string
  value in one of those fields would raise inside the Python callback and is
  outside the modelled input space.
* Values coming from dmc.NumberInput widgets are Option Rat: the widget
  yields a number or an empty value (None or the empty string, which the
  code rejects the same way wherever the distinction could matter).
* An HTTP response to a write request is modelled by Resp: a status code, or
  a raised transport exception carrying its message.

Because the Batteries rational arithmetic operations are irreducible, the
numeric kernels (rounding to cents, truncation, decimal-literal parsing) are
written over num/den with integer arithmetic so that they evaluate under
decide; bridge lemmas (round100_eq) certify that they agree with the intended
field-arithmetic formulations.
-/

/-- A dynamic JSON-ish value as handled by the Python callbacks: null,
a number, or a string. -/
inductive JVal where
  | null : JVal
  | num : ℚ → JVal
  | str : String → JVal
deriving DecidableEq, Repr

/-- Python truthiness of a JSON value: None, 0 and the empty string are falsy. -/
def JVal.truthy : JVal → Bool
  | JVal.null => false
  | JVal.num q => if q = 0 then false else true
  | JVal.str s => if s = "" then false else true

/-- Python dict.get k: an absent key yields None. -/
def jget : Option JVal → JVal
  | none => JVal.null
  | some v => v

/-- Python dict.get k d: the default applies only to an absent key, a key
present with value None still yields None. -/
def jgetD : Option JVal → JVal → JVal
  | none, d => d
  | some v, _ => v

/-- Python truthiness of an optional string (None and the empty string are falsy). -/
def pyTruthyS : Option String → Bool
  | none => false
  | some s => if s = "" then false else true

/-- Python truthiness of an optional number (None and 0 are falsy). -/
def pyTruthyQ : Option ℚ → Bool
  | none => false
  | some q => if q = 0 then false else true

/-- The Python idiom (x or d) on an optional string: falsy values are
replaced by the default. -/
def pyOrS (o : Option String) (d : String) : String :=
  match o with
  | none => d
  | some s => if s = "" then d else s

/-- Python str.upper, written over the character list (hence reducible
under decide, unlike String.map); it agrees with Python on the ASCII
strings that statuses, symbols and filter values consist of. -/
def pyUpper (s : String) : String :=
  String.mk (s.toList.map Char.toUpper)

/-- Python str.lower, written over the character list; see pyUpper. -/
def pyLower (s : String) : String :=
  String.mk (s.toList.map Char.toLower)

/-- Python str.startswith, written over the character lists so that it
evaluates under decide. -/
def pyStartsWith (s pre : String) : Bool :=
  pre.toList.isPrefixOf s.toList

/-- Python int(q): truncation toward zero. -/
def pyInt (q : ℚ) : ℤ :=
  if 0 ≤ q then ⌊q⌋ else ⌈q⌉

/-- The nearest integer to 100 times q, written over num/den so that it
evaluates under decide; round100_eq certifies it equals round (q * 100). -/
def round100 (q : ℚ) : ℤ :=
  (q.num * 200 + (q.den : ℤ)) / (2 * (q.den : ℤ))

/-- Numeric value of a list of decimal digit characters (empty list is 0). -/
def digitsVal (cs : List Char) : ℕ :=
  cs.foldl (fun a c => a * 10 + (c.toNat - 48)) 0

/-- Python float(s) on a string, restricted to the decimal-literal fragment
of the float grammar that is reachable in this program
(optional sign, digits, optional dot): none models a raised ValueError.
Exponents, infinities and nan are not produced by any caller here.  The
value of a parsed literal with integer part i, fraction part f of length k
and sign sgn is the rational sgn * (i * 10 ^ k + f) / 10 ^ k, built with
mkRat so that it evaluates under decide. -/
def py_float_str? (s : String) : Option ℚ :=
  let cs := s.toList
  let signed : ℤ × List Char :=
    match cs with
    | '-' :: t => (-1, t)
    | '+' :: t => (1, t)
    | _ => (1, cs)
  let sgn := signed.1
  let body := signed.2
  match body.span (fun c => c ≠ '.') with
  | (intPart, []) =>
      if intPart ≠ [] ∧ intPart.all Char.isDigit then
        some (mkRat (sgn * (digitsVal intPart : ℤ)) 1)
      else none
  | (intPart, _dot :: fracPart) =>
      if (intPart ≠ [] ∨ fracPart ≠ []) ∧ intPart.all Char.isDigit ∧ fracPart.all Char.isDigit then
        some (mkRat (sgn * ((digitsVal intPart : ℤ) * 10 ^ fracPart.length +
          (digitsVal fracPart : ℤ))) (10 ^ fracPart.length))
      else none

/-- Python float(v) on a dynamic value: numbers pass through, strings go
through the literal parser, None raises (TypeError), modelled as none. -/
def py_float? : JVal → Option ℚ
  | JVal.null => none
  | JVal.num q => some q
  | JVal.str s => py_float_str? s

/-- Rendering of a rational with two fixed decimal places, the model of the
Python format f-string with .2f.  The cents value is round (q * 100)
(lemma round100_eq); Python rounds the underlying binary double
half-to-even, which agrees with this on every input whose cents value is
not an exact half, and no verified property depends on the tie cases. -/
def fmt2 (q : ℚ) : String :=
  let c : ℤ := round100 q
  let n : ℕ := c.natAbs
  ((if c < 0 then "-" else "") ++ toString (n / 100)) ++ "." ++
    ((if n % 100 < 10 then "0" else "") ++ toString (n % 100))

/-- Python string slice over characters, s[a:b]. -/
def pySlice (s : String) (a b : ℕ) : String :=
  String.mk ((s.toList.drop a).take (b - a))

/-- Model of format_time from src/app.py lines 48-53 (identical in
src/app_base.py): falsy input gives the empty string, a string of length at
least 19 is sliced to its 11:19 window, shorter strings pass through, and a
non-falsy number is rendered with str (modelled by the Rat printer; numeric
timestamps never occur in the API contract and no claim touches them). -/
def format_time : JVal → String
  | JVal.null => ""
  | JVal.num q => if q = 0 then "" else toString q
  | JVal.str s =>
      if s = "" then ""
      else if s.length ≥ 19 then pySlice s 11 19 else s

/-- Model of format_price from src/app.py lines 56-65 (identical in
src/app_base.py): None, a non-numeric value, or a value at most zero render
as MKT, anything else as a dollar sign and two fixed decimals. -/
def format_price (v : JVal) : String :=
  match py_float? v with
  | none => "MKT"
  | some fv => if fv ≤ 0 then "MKT" else "$" ++ fmt2 fv


/-- The set of order statuses considered open and actionable, from
src/app.py line 70 (the same tuple appears inline in refresh_orders in both
files). -/
def OPEN_STATUSES : List String :=
  ["NEW", "PENDING", "PARTIALLY_FILLED", "PENDING_REPLACE", "PENDING_NEW", "PENDING_CANCEL"]

/-- A raw order record as fetched from the orders endpoint.  Fields the code
treats as dynamic JSON values are Option JVal entries (none is an absent
key); fields consumed only as text are Option String (none covers an absent
or null key, which the code treats alike for them). -/
structure RawOrder where
  clOrdId : Option String := none
  symbol : Option String := none
  side : Option String := none
  orderType : Option String := none
  status : Option String := none
  quantity : Option JVal := none
  price : Option JVal := none
  filledQuantity : Option JVal := none
  leavesQuantity : Option JVal := none
  timestamp : Option JVal := none
deriving DecidableEq, Repr

/-- A normalized display row, the dict produced per order by
normalize_orders_for_table in src/app.py lines 68-90: the original record
with timestamp, price, filledQuantity and leavesQuantity rewritten and the
actions marker attached. -/
structure NormRow where
  clOrdId : Option String := none
  symbol : Option String := none
  side : Option String := none
  orderType : Option String := none
  status : Option String := none
  quantity : Option JVal := none
  timestamp : String := ""
  price : String := ""
  filledQuantity : JVal := JVal.null
  leavesQuantity : JVal := JVal.null
  actions : String := ""
deriving DecidableEq, Repr

/-- The per-order body of the loop in normalize_orders_for_table,
src/app.py lines 73-89: format timestamp and price, default a falsy
filledQuantity to 0, replace a null leavesQuantity by the quantity field
(with default 0 for an absent quantity key), and attach the actions glyph
for open statuses. -/
def normalize_order_row (o : RawOrder) : NormRow :=
  { clOrdId := o.clOrdId
    symbol := o.symbol
    side := o.side
    orderType := o.orderType
    status := o.status
    quantity := o.quantity
    timestamp := format_time (jget o.timestamp)
    price := format_price (jget o.price)
    filledQuantity :=
      if (jget o.filledQuantity).truthy then jget o.filledQuantity else JVal.num 0
    leavesQuantity :=
      match jget o.leavesQuantity with
      | JVal.null => jgetD o.quantity (JVal.num 0)
      | v => v
    actions :=
      if pyUpper (pyOrS o.status "") ∈ OPEN_STATUSES then "⋮" else "" }

/-- Model of normalize_orders_for_table, src/app.py lines 68-90: a None or
empty argument yields the empty table, otherwise each record is normalized
in order. -/
def normalize_orders_for_table (orders : Option (List RawOrder)) : List NormRow :=
  (orders.getD []).map normalize_order_row

/-- A session record from the sessions endpoint; loggedOn is consumed only
by a truthiness test, the comp ids only by string interpolation. -/
structure Session where
  loggedOn : Option Bool := none
  senderCompId : Option String := none
  targetCompId : Option String := none
deriving DecidableEq, Repr

/-- Model of update_connection_status, src/app.py lines 1036-1042 (identical
in src/app_base.py lines 533-539).  The argument is the result of
safe_get_json on the sessions endpoint: none models a fetch failure or a
non-200 response.  The result is the badge text, the badge colour and the
footer text. -/
def update_connection_status (sessions : Option (List Session)) : String × String × String :=
  match sessions with
  | some (s :: _) =>
      if s.loggedOn.getD false then
        ("CONNECTED", "green",
         "Session: " ++ (s.senderCompId.getD "None") ++ " → " ++ (s.targetCompId.getD "None"))
      else ("DISCONNECTED", "red", "No active session")
  | _ => ("DISCONNECTED", "red", "No active session")

/-- The inline filtering step of refresh_orders, src/app.py lines 1115-1123
(identical in src/app_base.py lines 612-620): a falsy filter value defaults
to all, the value is lowercased, working keeps open statuses, filled keeps
FILLED, and anything else passes the list through unchanged. -/
def filter_orders (orders : List RawOrder) (filter_value : Option String) : List RawOrder :=
  let fv := pyLower (pyOrS filter_value "all")
  if fv = "working" then
    orders.filter (fun o => decide (pyUpper (pyOrS o.status "") ∈ OPEN_STATUSES))
  else if fv = "filled" then
    orders.filter (fun o => decide (pyUpper (pyOrS o.status "") = "FILLED"))
  else orders

/-- Model of refresh_orders, src/app.py lines 1113-1125: fetch (none models
a failed fetch, defaulted to the empty list), filter, normalize. -/
def refresh_orders (fetch : Option (List RawOrder)) (filter_value : Option String) : List NormRow :=
  normalize_orders_for_table (some (filter_orders (fetch.getD []) filter_value))

/-- The JSON body of a create-order request as built by submit_order and
handle_drawer_orders; price = none models an absent price key. -/
structure OrderPayload where
  symbol : String
  side : String
  orderType : String
  quantity : ℤ
  price : Option ℚ
deriving DecidableEq, Repr

/-- The observable outcome of a submit callback: no update (quick-quantity
buttons), a local validation alert with no network request, or a create
request carrying the built payload. -/
inductive SubmitOutcome where
  | noUpdate : SubmitOutcome
  | reject : String → SubmitOutcome
  | send : OrderPayload → SubmitOutcome
deriving DecidableEq, Repr

/-- Model of submit_order, src/app.py lines 1080-1096, up to the issuing of
the POST (the response handling beyond this point only selects the alert
text and is not the subject of any claim).  quantity and price are
Option Rat from the number inputs; a blank price (None or the empty string)
is the none case, matching the guard that treats both alike. -/
def submit_order (triggered_id : String) (symbol : Option String)
    (quantity price : Option ℚ) (order_type : Option String) : SubmitOutcome :=
  let side := if triggered_id = "buy-btn" then "BUY" else "SELL"
  if pyTruthyS symbol = false ∨ pyTruthyQ quantity = false then
    SubmitOutcome.reject "Enter symbol and quantity"
  else
    let ot := pyUpper (pyOrS order_type "LIMIT")
    if ot = "LIMIT" ∧ price = none then
      SubmitOutcome.reject "Enter price for limit order"
    else
      SubmitOutcome.send
        { symbol := pyUpper (symbol.getD "")
          side := side
          orderType := ot
          quantity := pyInt (quantity.getD 0)
          price := if ot = "LIMIT" then price else none }

/-- Model of handle_drawer_orders, src/app.py lines 1178-1218, up to the
issuing of the POST.  Quick-quantity triggers return no update; symbol and
quantity are validated separately; the price key is attached only when the
order type is LIMIT and the price is truthy. -/
def handle_drawer_orders (triggered_id : String) (symbol : Option String)
    (quantity price : Option ℚ) (order_type : Option String) : SubmitOutcome :=
  if pyStartsWith triggered_id "qty-" then
    SubmitOutcome.noUpdate
  else
    let side := if triggered_id = "drawer-buy-btn" then "BUY" else "SELL"
    if pyTruthyS symbol = false then
      SubmitOutcome.reject "Enter a symbol"
    else if pyTruthyQ quantity = false then
      SubmitOutcome.reject "Enter quantity"
    else
      let ot := pyUpper (pyOrS order_type "LIMIT")
      if ot = "LIMIT" ∧ price = none then
        SubmitOutcome.reject "Enter price for limit order"
      else
        SubmitOutcome.send
          { symbol := pyUpper (symbol.getD "")
            side := side
            orderType := ot
            quantity := pyInt (quantity.getD 0)
            price := if ot = "LIMIT" ∧ pyTruthyQ price = true then price else none }

/-- Outcome of a write request as observed by the callback: an HTTP status
code, or a raised transport exception with its message. -/
inductive Resp where
  | status : ℕ → Resp
  | exn : String → Resp
deriving DecidableEq, Repr

/-- The JSON body of an amend (PUT) request; a none field models an absent
key, so the payload carries only the fields actually supplied. -/
structure AmendPayload where
  symbol : Option String
  side : Option String
  newQuantity : Option ℤ
  newPrice : Option ℚ
deriving DecidableEq, Repr

/-- A write request issued by the order-actions callbacks: a DELETE with
symbol and side as query parameters (cancel), or a PUT with an amend
payload. -/
inductive ModalRequest where
  | delete : String → Option String → Option String → ModalRequest
  | put : String → AmendPayload → ModalRequest
deriving DecidableEq, Repr

/-- The full observable effect of one invocation of handle_modal_actions:
the request issued (if any), the inline status message (empty string for no
alert), and the new opened state of the dialog (none models dash.no_update,
that is the dialog state is left unchanged). -/
structure ModalStep where
  request : Option ModalRequest
  msg : String
  opened : Option Bool
deriving DecidableEq, Repr

/-- Model of handle_modal_actions, src/app.py lines 1353-1401.  order_data
is the stored normalized row (none models a missing store); new_qty and
new_price come from the amend number inputs; resp is the backend's answer
to whichever request is issued and is consulted only after the request
field records that a request was made. -/
def handle_modal_actions (triggered_id : String) (order_data : Option NormRow)
    (new_qty new_price : Option ℚ) (resp : Resp) : ModalStep :=
  match order_data with
  | none => { request := none, msg := "", opened := none }
  | some od =>
    if pyTruthyS od.clOrdId = false then
      { request := none, msg := "No order selected", opened := none }
    else if triggered_id = "modal-cancel-btn" then
      { request := some (ModalRequest.delete (od.clOrdId.getD "") od.symbol od.side)
        msg :=
          match resp with
          | Resp.status n => if n = 200 then "✓ Cancel request sent" else "Cancel failed"
          | Resp.exn e => "Error: " ++ e
        opened :=
          match resp with
          | Resp.status n => if n = 200 then some false else none
          | Resp.exn _ => none }
    else if triggered_id = "modal-amend-btn" then
      if pyTruthyQ new_qty = false ∧ pyTruthyQ new_price = false then
        { request := none, msg := "Enter new quantity or price", opened := none }
      else
        { request := some (ModalRequest.put (od.clOrdId.getD "")
            { symbol := od.symbol
              side := od.side
              newQuantity := if pyTruthyQ new_qty then some (pyInt (new_qty.getD 0)) else none
              newPrice := if pyTruthyQ new_price then new_price else none })
          msg :=
            match resp with
            | Resp.status n => if n = 200 then "✓ Amend request sent" else "Amend failed"
            | Resp.exn e => "Error: " ++ e
          opened :=
            match resp with
            | Resp.status n => if n = 200 then some false else none
            | Resp.exn _ => none }
    else { request := none, msg := "", opened := none }

/-- The observable effect of one invocation of handle_order_action in
src/app_base.py: the request issued (if any) and the inline message (that
app has no dialog to close). -/
structure ActionRet where
  request : Option ModalRequest
  msg : String
deriving DecidableEq, Repr

/-- Model of handle_order_action, src/app_base.py lines 665-699.  clordid,
symbol and side are snapshots held in the disabled text inputs. -/
def handle_order_action (triggered_id : String) (clordid symbol side : Option String)
    (new_qty new_price : Option ℚ) (resp : Resp) : ActionRet :=
  if pyTruthyS clordid = false then
    { request := none, msg := "Select an order first" }
  else if triggered_id = "cancel-btn" then
    { request := some (ModalRequest.delete (clordid.getD "") symbol side)
      msg :=
        match resp with
        | Resp.status n => if n = 200 then "✓ Cancel sent" else "Cancel failed"
        | Resp.exn e => "Error: " ++ e }
  else if triggered_id = "amend-btn" then
    if pyTruthyQ new_qty = false ∧ pyTruthyQ new_price = false then
      { request := none, msg := "Enter new qty or price" }
    else
      { request := some (ModalRequest.put (clordid.getD "")
          { symbol := symbol
            side := side
            newQuantity := if pyTruthyQ new_qty then some (pyInt (new_qty.getD 0)) else none
            newPrice := if pyTruthyQ new_price then new_price else none })
        msg :=
          match resp with
          | Resp.status n => if n = 200 then "✓ Amend sent" else "Amend failed"
          | Resp.exn e => "Error: " ++ e }
  else { request := none, msg := "Request failed" }

/-- The active_cell dict of the orders table: the clicked column id and row
index as dict.get yields them. -/
structure ActiveCell where
  column_id : Option String := none
  row : Option ℕ := none
deriving DecidableEq, Repr

/-- Python str.replace on the dollar sign: every occurrence is removed. -/
def strip_dollar (s : String) : String :=
  String.mk (s.toList.filter (fun c => c ≠ '$'))

/-- The outputs of open_actions_modal when it does open the dialog: the
stored row, the display fields, and the prefill values for the amend
inputs. -/
structure ModalOpen where
  row : NormRow
  clOrdId : String
  symbol : String
  side : String
  side_color : String
  status : String
  status_color : String
  amend_qty : Option JVal
  amend_price : Option ℚ
deriving DecidableEq, Repr

/-- The status colour lookup of open_actions_modal, src/app.py lines
1309-1317 (dict.get with default gray). -/
def status_color_map (s : String) : String :=
  if s = "NEW" then "blue"
  else if s = "PENDING" then "blue"
  else if s = "PENDING_NEW" then "blue"
  else if s = "PARTIALLY_FILLED" then "yellow"
  else if s = "PENDING_REPLACE" then "cyan"
  else if s = "PENDING_CANCEL" then "orange"
  else "gray"

/-- Model of open_actions_modal, src/app.py lines 1281-1340.  The result is
none for the no-action tuple (every output dash.no_update, so no dialog
state changes and nothing is stored), and some ModalOpen when the dialog is
opened for the clicked row. -/
def open_actions_modal (active_cell : Option ActiveCell)
    (data : Option (List NormRow)) : Option ModalOpen :=
  match active_cell, data with
  | some cell, some rows =>
    if rows = [] then none
    else if cell.column_id ≠ some "actions" then none
    else
      match cell.row with
      | none => none
      | some i =>
        if h : i < rows.length then
          let row := rows.get ⟨i, h⟩
          if row.actions = "" then none
          else
            let side := row.side.getD ""
            let price_val : Option ℚ :=
              if row.price ≠ "" ∧ row.price ≠ "MKT" then
                py_float_str? (strip_dollar row.price)
              else none
            some
              { row := row
                clOrdId := row.clOrdId.getD ""
                symbol := row.symbol.getD ""
                side := side
                side_color := if side = "BUY" then "#00d4aa" else "#ff6b6b"
                status := row.status.getD ""
                status_color := status_color_map (row.status.getD "")
                amend_qty := row.quantity
                amend_price := price_val }
        else none
  | _, _ => none

/-- A sample open order row as stored by the modal (the normalization of a
NEW order), used as the concrete instance in several witnesses. -/
def rowNew : NormRow :=
  { clOrdId := some "A1"
    symbol := some "AAPL"
    side := some "BUY"
    orderType := some "LIMIT"
    status := some "NEW"
    quantity := some (JVal.num (mkRat 100 1))
    timestamp := "10:20:30"
    price := "MKT"
    filledQuantity := JVal.num 0
    leavesQuantity := JVal.num (mkRat 100 1)
    actions := "⋮" }

/-- A sample terminal order row (FILLED, empty actions marker), used as the
concrete instance in several witnesses. -/
def rowFilled : NormRow :=
  { clOrdId := some "B2"
    symbol := some "MSFT"
    side := some "SELL"
    orderType := some "LIMIT"
    status := some "FILLED"
    quantity := some (JVal.num (mkRat 50 1))
    timestamp := "10:21:00"
    price := "MKT"
    filledQuantity := JVal.num (mkRat 50 1)
    leavesQuantity := JVal.num 0
    actions := "" }

/-- A sample raw open order and a sample raw filled order, used as concrete
instances in several witnesses. -/
def oNew : RawOrder :=
  { clOrdId := some "A1", status := some "NEW", quantity := some (JVal.num (mkRat 100 1)) }

def oFilled : RawOrder :=
  { clOrdId := some "B2", status := some "FILLED", quantity := some (JVal.num (mkRat 50 1)) }

/-! Helper lemmas shared by the claim theorems. -/

theorem round100_eq (q : ℚ) : round100 q = round (q * 100) := by
  have hd : ((q.den : ℚ)) ≠ 0 := by
    exact_mod_cast q.den_nz
  have key : q * 100 + 1 / 2 =
      ((q.num * 200 + (q.den : ℤ) : ℤ) : ℚ) / ((2 * q.den : ℕ) : ℚ) := by
    conv_lhs => rw [← Rat.num_div_den q]
    push_cast
    field_simp
    ring
  rw [round_eq, key, Rat.floor_intCast_div_natCast]
  unfold round100
  congr 1

theorem two_dec_block (m : ℕ) (hm : m < 100) :
    ((if m < 10 then "0" else "") ++ toString m).length = 2 ∧
    ((if m < 10 then "0" else "") ++ toString m).toList.all Char.isDigit = true := by
  revert hm
  revert m
  decide

theorem fmt2_shape (q : ℚ) (hq : 0 < q) :
    ∃ a b : String, fmt2 q = a ++ "." ++ b ∧ b.length = 2 ∧
      b.toList.all Char.isDigit = true := by
  have hc : 0 ≤ round100 q := by
    rw [round100_eq, round_eq]
    have h0 : (0 : ℚ) ≤ q * 100 + 1 / 2 := by nlinarith
    exact Int.le_floor.mpr (by exact_mod_cast h0)
  have hlt : ¬ round100 q < 0 := not_lt.mpr hc
  have hmod : (round100 q).natAbs % 100 < 100 := Nat.mod_lt _ (by norm_num)
  refine ⟨"" ++ toString ((round100 q).natAbs / 100),
    (if (round100 q).natAbs % 100 < 10 then "0" else "") ++
      toString ((round100 q).natAbs % 100), ?_, ?_, ?_⟩
  · simp only [fmt2, if_neg hlt]
  · exact (two_dec_block _ hmod).1
  · exact (two_dec_block _ hmod).2

theorem errorMsg_ne_empty (e : String) : "Error: " ++ e ≠ "" := by
  intro h
  have h2 := congrArg String.length h
  rw [String.length_append] at h2
  have h3 : 7 + e.length = 0 := h2
  omega

/-! Claim theorems. -/

/-- C9: format_price returns the literal MKT when the input is absent,
non-numeric, or numerically at most zero, and otherwise a dollar sign
followed by the value rendered with exactly two decimal digits; in
particular 0, -5 and None give MKT and 172.3 gives $172.30. -/
theorem C9_format_price_spec :
    (∀ v : JVal, py_float? v = none → format_price v = "MKT") ∧
    (∀ (v : JVal) (q : ℚ), py_float? v = some q → q ≤ 0 → format_price v = "MKT") ∧
    (∀ (v : JVal) (q : ℚ), py_float? v = some q → 0 < q →
      format_price v = "$" ++ fmt2 q ∧
      ∃ a b : String, format_price v = "$" ++ (a ++ "." ++ b) ∧ b.length = 2 ∧
        b.toList.all Char.isDigit = true) ∧
    format_price (JVal.num (mkRat 0 1)) = "MKT" ∧
    format_price (JVal.num (mkRat (-5) 1)) = "MKT" ∧
    format_price JVal.null = "MKT" ∧
    format_price (JVal.num (mkRat 1723 10)) = "$172.30" := by
  refine ⟨?_, ?_, ?_, by decide, by decide, by decide, by decide⟩
  · intro v h
    simp [format_price, h]
  · intro v q h hle
    simp [format_price, h, if_pos hle]
  · intro v q h hq
    have hn : ¬ q ≤ 0 := not_le.mpr hq
    have hmain : format_price v = "$" ++ fmt2 q := by
      simp [format_price, h, hn]
    obtain ⟨a, b, hab, hb2, hbd⟩ := fmt2_shape q hq
    exact ⟨hmain, a, b, by rw [hmain, hab], hb2, hbd⟩

/-- Witness for C9 at the concrete positive input 7. -/
theorem C9_witness :
    format_price (JVal.num (mkRat 7 1)) = "$" ++ fmt2 (mkRat 7 1) :=
  (C9_format_price_spec.2.2.1 (JVal.num (mkRat 7 1)) (mkRat 7 1) rfl (by decide)).1

/-- C1: a normalized row's actions marker is non-empty exactly when the
uppercased status is in the OPEN set, the marker depends on the status field
alone, and any terminal status yields an empty marker. -/
theorem C1_actions_iff_open :
    ∀ o : RawOrder,
      ((normalize_order_row o).actions ≠ "" ↔
        pyUpper (pyOrS o.status "") ∈ OPEN_STATUSES) ∧
      (∀ o2 : RawOrder, o.status = o2.status →
        (normalize_order_row o).actions = (normalize_order_row o2).actions) ∧
      (pyUpper (pyOrS o.status "") ∈ ["FILLED", "CANCELLED", "REPLACED", "REJECTED"] →
        (normalize_order_row o).actions = "") := by
  intro o
  refine ⟨?_, ?_, ?_⟩
  · by_cases hm : pyUpper (pyOrS o.status "") ∈ OPEN_STATUSES
    · simp [normalize_order_row, hm]
    · simp [normalize_order_row, hm]
  · intro o2 h
    simp only [normalize_order_row]
    rw [h]
  · intro hterm
    have hnot : pyUpper (pyOrS o.status "") ∉ OPEN_STATUSES := by
      simp only [List.mem_cons, List.not_mem_nil, or_false] at hterm
      rcases hterm with h | h | h | h <;> rw [h] <;> decide
    simp [normalize_order_row, hnot]

/-- Witness for C1: the NEW sample order has the marker, the FILLED one does
not. -/
theorem C1_witness :
    (normalize_order_row oNew).actions ≠ "" ∧
    (normalize_order_row oFilled).actions = "" :=
  ⟨(C1_actions_iff_open oNew).1.mpr (by decide),
   (C1_actions_iff_open oFilled).2.2 (by decide)⟩

/-- C8: normalize_order_row applies the formatters to timestamp and price,
defaults a null filledQuantity to 0 and a null leavesQuantity to the
quantity field, and on the sample order A1 produces exactly the expected
row, with the actions marker present. -/
theorem C8_normalize_row_spec :
    (∀ o : RawOrder,
      (normalize_order_row o).timestamp = format_time (jget o.timestamp) ∧
      (normalize_order_row o).price = format_price (jget o.price) ∧
      (jget o.filledQuantity = JVal.null →
        (normalize_order_row o).filledQuantity = JVal.num 0) ∧
      (jget o.leavesQuantity = JVal.null →
        (normalize_order_row o).leavesQuantity = jgetD o.quantity (JVal.num 0))) ∧
    normalize_order_row
      { clOrdId := some "A1", status := some "NEW",
        quantity := some (JVal.num (mkRat 100 1)), price := some (JVal.num (mkRat 10 1)) } =
      { clOrdId := some "A1", status := some "NEW",
        quantity := some (JVal.num (mkRat 100 1)),
        timestamp := "", price := "$10.00",
        filledQuantity := JVal.num 0, leavesQuantity := JVal.num (mkRat 100 1),
        actions := "⋮" } := by
  refine ⟨?_, by decide⟩
  intro o
  refine ⟨rfl, rfl, ?_, ?_⟩
  · intro h
    simp [normalize_order_row, h, JVal.truthy]
  · intro h
    simp [normalize_order_row, h]

/-- Witness for C8: the defaults fire on the sample NEW order, whose
filledQuantity and leavesQuantity keys are absent. -/
theorem C8_witness :
    (normalize_order_row oNew).filledQuantity = JVal.num 0 ∧
    (normalize_order_row oNew).leavesQuantity = jgetD oNew.quantity (JVal.num 0) :=
  ⟨(C8_normalize_row_spec.1 oNew).2.2.1 rfl,
   (C8_normalize_row_spec.1 oNew).2.2.2 rfl⟩

/-- C7: the working filter keeps exactly the orders with an open uppercased
status, the filled filter keeps exactly the FILLED ones, any other filter
value (including all) passes the list through unchanged, and the result is
always a sublist of the input, so the surviving orders keep their relative
order. -/
theorem C7_filter_orders_spec :
    ∀ (os : List RawOrder) (fv : Option String),
      (pyLower (pyOrS fv "all") = "working" →
        ∀ o, o ∈ filter_orders os fv ↔
          o ∈ os ∧ pyUpper (pyOrS o.status "") ∈ OPEN_STATUSES) ∧
      (pyLower (pyOrS fv "all") = "filled" →
        ∀ o, o ∈ filter_orders os fv ↔
          o ∈ os ∧ pyUpper (pyOrS o.status "") = "FILLED") ∧
      (pyLower (pyOrS fv "all") ≠ "working" → pyLower (pyOrS fv "all") ≠ "filled" →
        filter_orders os fv = os) ∧
      (filter_orders os fv).Sublist os := by
  intro os fv
  refine ⟨?_, ?_, ?_, ?_⟩
  · intro h o
    simp [filter_orders, h, List.mem_filter]
  · intro h o
    simp [filter_orders, h, List.mem_filter]
  · intro h1 h2
    simp [filter_orders, h1, h2]
  · simp only [filter_orders]
    split
    · exact List.filter_sublist _
    · split
      · exact List.filter_sublist _
      · exact List.Sublist.refl _

/-- Witness for C7: working keeps the NEW sample order, all passes the
mixed list through unchanged. -/
theorem C7_witness :
    oNew ∈ filter_orders [oNew, oFilled] (some "working") ∧
    filter_orders [oNew, oFilled] (some "all") = [oNew, oFilled] :=
  ⟨((C7_filter_orders_spec [oNew, oFilled] (some "working")).1 (by decide) oNew).mpr
      ⟨by simp, by decide⟩,
   (C7_filter_orders_spec [oNew, oFilled] (some "all")).2.2.1 (by decide) (by decide)⟩

/-- C2 (amended): the badge shows CONNECTED exactly when the fetch succeeded
with a non-empty list whose first record has loggedOn true; in every other
outcome it shows DISCONNECTED. -/
theorem C2_connected_iff_head_loggedOn :
    ∀ sessions : Option (List Session),
      ((update_connection_status sessions).1 = "CONNECTED" ↔
        ∃ s t, sessions = some (s :: t) ∧ s.loggedOn = some true) ∧
      ((update_connection_status sessions).1 = "CONNECTED" ∨
        (update_connection_status sessions).1 = "DISCONNECTED") := by
  intro sessions
  cases sessions with
  | none => simp [update_connection_status]
  | some l =>
    cases l with
    | nil => simp [update_connection_status]
    | cons s t =>
      cases hb : s.loggedOn with
      | none => simp [update_connection_status, hb]
      | some b => cases b <;> simp [update_connection_status, hb]

/-- Witness for C2: a single logged-on session renders CONNECTED. -/
theorem C2_witness :
    (update_connection_status
      (some [{ loggedOn := some true, senderCompId := some "X", targetCompId := some "Y" }])).1 =
      "CONNECTED" :=
  (C2_connected_iff_head_loggedOn _).1.mpr ⟨_, _, rfl, rfl⟩

/-- Counterexample to C2 as stated: with two session records where only the
second is logged on, the list does contain a record with loggedOn true, yet
the badge shows DISCONNECTED because the code inspects only the first
record. -/
theorem C2_counterexample :
    (update_connection_status
      (some [{ loggedOn := some false }, { loggedOn := some true }])).1 = "DISCONNECTED" ∧
    (some [({ loggedOn := some false } : Session), { loggedOn := some true }]).isSome = true ∧
    ∃ s ∈ [({ loggedOn := some false } : Session), { loggedOn := some true }],
      s.loggedOn = some true := by
  refine ⟨by decide, by decide, ⟨{ loggedOn := some true }, by simp, rfl⟩⟩

/-- C3 (amended): the order-entry panel validates in the claimed order with
the claimed messages and its create payload carries the uppercased symbol,
side, order type and quantity with the price key present exactly when the
order type is LIMIT; the drawer flow differs in that a missing symbol and a
missing quantity get separate messages and the price key is present exactly
when the order type is LIMIT and the supplied price is truthy (a zero price
is omitted). -/
theorem C3_submit_validation :
    (∀ (t : String) (sym : Option String) (q p : Option ℚ) (ot : Option String),
      (pyTruthyS sym = false ∨ pyTruthyQ q = false →
        submit_order t sym q p ot = SubmitOutcome.reject "Enter symbol and quantity") ∧
      (pyTruthyS sym = true → pyTruthyQ q = true →
        pyUpper (pyOrS ot "LIMIT") = "LIMIT" → p = none →
        submit_order t sym q p ot = SubmitOutcome.reject "Enter price for limit order") ∧
      (∀ pay, submit_order t sym q p ot = SubmitOutcome.send pay →
        pay.symbol = pyUpper (sym.getD "") ∧
        pay.side = (if t = "buy-btn" then "BUY" else "SELL") ∧
        pay.orderType = pyUpper (pyOrS ot "LIMIT") ∧
        pay.quantity = pyInt (q.getD 0) ∧
        (pay.price.isSome = true ↔ pay.orderType = "LIMIT"))) ∧
    (∀ (t : String) (sym : Option String) (q p : Option ℚ) (ot : Option String),
      pyStartsWith t "qty-" = false →
      (pyTruthyS sym = false →
        handle_drawer_orders t sym q p ot = SubmitOutcome.reject "Enter a symbol") ∧
      (pyTruthyS sym = true → pyTruthyQ q = false →
        handle_drawer_orders t sym q p ot = SubmitOutcome.reject "Enter quantity") ∧
      (pyTruthyS sym = true → pyTruthyQ q = true →
        pyUpper (pyOrS ot "LIMIT") = "LIMIT" → p = none →
        handle_drawer_orders t sym q p ot =
          SubmitOutcome.reject "Enter price for limit order") ∧
      (∀ pay, handle_drawer_orders t sym q p ot = SubmitOutcome.send pay →
        pay.symbol = pyUpper (sym.getD "") ∧
        pay.side = (if t = "drawer-buy-btn" then "BUY" else "SELL") ∧
        pay.orderType = pyUpper (pyOrS ot "LIMIT") ∧
        pay.quantity = pyInt (q.getD 0) ∧
        (pay.price.isSome = true ↔
          pay.orderType = "LIMIT" ∧ pyTruthyQ p = true))) := by
  constructor
  · intro t sym q p ot
    refine ⟨?_, ?_, ?_⟩
    · intro h1
      simp [submit_order, h1]
    · intro hs hq hl hp
      simp [submit_order, hs, hq, hl, hp]
    · intro pay h
      unfold submit_order at h
      by_cases h1 : pyTruthyS sym = false ∨ pyTruthyQ q = false
      · rw [if_pos h1] at h
        simp at h
      · rw [if_neg h1] at h
        by_cases h2 : pyUpper (pyOrS ot "LIMIT") = "LIMIT" ∧ p = none
        · rw [if_pos h2] at h
          simp at h
        · rw [if_neg h2] at h
          injection h with h
          subst h
          refine ⟨rfl, rfl, rfl, rfl, ?_⟩
          by_cases hl : pyUpper (pyOrS ot "LIMIT") = "LIMIT"
          · have hp : p ≠ none := fun hpn => h2 ⟨hl, hpn⟩
            simp [hl, Option.isSome_iff_ne_none, hp]
          · simp [hl]
  · intro t sym q p ot hqty
    refine ⟨?_, ?_, ?_, ?_⟩
    · intro h1
      simp [handle_drawer_orders, hqty, h1]
    · intro hs hq
      simp [handle_drawer_orders, hqty, hs, hq]
    · intro hs hq hl hp
      simp [handle_drawer_orders, hqty, hs, hq, hl, hp]
    · intro pay h
      unfold handle_drawer_orders at h
      rw [hqty] at h
      simp only [Bool.false_eq_true, if_false] at h
      by_cases h1 : pyTruthyS sym = false
      · rw [if_pos h1] at h
        simp at h
      · rw [if_neg h1] at h
        by_cases h2 : pyTruthyQ q = false
        · rw [if_pos h2] at h
          simp at h
        · rw [if_neg h2] at h
          by_cases h3 : pyUpper (pyOrS ot "LIMIT") = "LIMIT" ∧ p = none
          · rw [if_pos h3] at h
            simp at h
          · rw [if_neg h3] at h
            injection h with h
            subst h
            refine ⟨rfl, rfl, rfl, rfl, ?_⟩
            by_cases hl : pyUpper (pyOrS ot "LIMIT") = "LIMIT" ∧ pyTruthyQ p = true
            · have hp : p ≠ none := by
                intro hpn
                rw [hpn] at hl
                simp [pyTruthyQ] at hl
              simp [hl, Option.isSome_iff_ne_none, hp, hl.1, hl.2]
            · simp only [if_neg hl]
              simp only [Option.isSome_none]
              constructor
              · intro hfalse
                cases hfalse
              · intro hand
                exact absurd hand hl

/-- Counterexample to C3 as stated: in the drawer flow a LIMIT order with a
zero price passes validation and is sent without a price key (so the
payload does not contain price although the type is LIMIT), and a missing
symbol is rejected with the message Enter a symbol rather than the claimed
combined message. -/
theorem C3_counterexample :
    handle_drawer_orders "drawer-buy-btn" (some "AAPL") (some (mkRat 100 1)) (some 0)
        (some "LIMIT") =
      SubmitOutcome.send
        { symbol := "AAPL", side := "BUY", orderType := "LIMIT",
          quantity := 100, price := none } ∧
    handle_drawer_orders "drawer-buy-btn" none (some (mkRat 100 1)) (some (mkRat 10 1))
        (some "LIMIT") =
      SubmitOutcome.reject "Enter a symbol" ∧
    "Enter a symbol" ≠ "Enter symbol and quantity" := by
  refine ⟨by decide, by decide, by decide⟩

/-- Witness for C3: both local rejections of the order-entry panel at
concrete inputs. -/
theorem C3_witness :
    submit_order "buy-btn" none none none none =
      SubmitOutcome.reject "Enter symbol and quantity" ∧
    submit_order "buy-btn" (some "AAPL") (some (mkRat 100 1)) none (some "LIMIT") =
      SubmitOutcome.reject "Enter price for limit order" :=
  ⟨(C3_submit_validation.1 "buy-btn" none none none none).1 (Or.inl rfl),
   (C3_submit_validation.1 "buy-btn" (some "AAPL") (some (mkRat 100 1)) none
      (some "LIMIT")).2.1 (by decide) (by decide) (by decide) rfl⟩

/-- C4: an amend with neither a new quantity nor a new price is rejected
locally with no request, and any amend request that is issued carries
exactly the snapshotted symbol and side plus the fields actually supplied;
in particular an amend with only a new quantity yields a payload holding
just symbol, side and newQuantity.  The same validation holds for the
app_base panel. -/
theorem C4_amend_payload_spec :
    (∀ (od : NormRow) (q p : Option ℚ) (resp : Resp),
      pyTruthyS od.clOrdId = true →
      (pyTruthyQ q = false → pyTruthyQ p = false →
        handle_modal_actions "modal-amend-btn" (some od) q p resp =
          { request := none, msg := "Enter new quantity or price", opened := none }) ∧
      (∀ req, (handle_modal_actions "modal-amend-btn" (some od) q p resp).request = some req →
        req = ModalRequest.put (od.clOrdId.getD "")
          { symbol := od.symbol
            side := od.side
            newQuantity := if pyTruthyQ q then some (pyInt (q.getD 0)) else none
            newPrice := if pyTruthyQ p then p else none })) ∧
    (∀ (cid sym sd : Option String) (q p : Option ℚ) (resp : Resp),
      pyTruthyS cid = true → pyTruthyQ q = false → pyTruthyQ p = false →
      handle_order_action "amend-btn" cid sym sd q p resp =
        { request := none, msg := "Enter new qty or price" }) ∧
    (handle_modal_actions "modal-amend-btn" (some rowNew) (some (mkRat 200 1)) none
        (Resp.status 200)).request =
      some (ModalRequest.put "A1"
        { symbol := some "AAPL", side := some "BUY",
          newQuantity := some 200, newPrice := none }) := by
  refine ⟨?_, ?_, by decide⟩
  · intro od q p resp hc
    constructor
    · intro hq hp
      simp [handle_modal_actions, hc, hq, hp]
    · intro req h
      by_cases hqp : pyTruthyQ q = false ∧ pyTruthyQ p = false
      · simp [handle_modal_actions, hc, hqp] at h
      · simp [handle_modal_actions, hc, hqp] at h
        exact h.symm
  · intro cid sym sd q p resp hc hq hp
    simp [handle_order_action, hc, hq, hp]

/-- Witness for C4: the empty amend on the sample row is rejected locally. -/
theorem C4_witness :
    handle_modal_actions "modal-amend-btn" (some rowNew) none none (Resp.status 200) =
      { request := none, msg := "Enter new quantity or price", opened := none } :=
  ((C4_amend_payload_spec.1 rowNew none none (Resp.status 200)) (by decide)).1 rfl rfl

/-- C5: whenever the modal callback issues a request (amend or cancel), a
200 response closes the dialog (the opened output becomes false, returning
the selection to Idle, independently of any poll content, which is not even
an input of the callback), while a non-200 response or a transport
exception leaves the dialog state untouched (no_update) and shows a
non-empty inline failure message. -/
theorem C5_success_closes_dialog :
    ∀ (td : String) (od : Option NormRow) (q p : Option ℚ) (resp : Resp)
      (req : ModalRequest),
      (handle_modal_actions td od q p resp).request = some req →
      ((resp = Resp.status 200 →
        (handle_modal_actions td od q p resp).opened = some false) ∧
      (∀ n : ℕ, resp = Resp.status n → n ≠ 200 →
        (handle_modal_actions td od q p resp).opened = none ∧
        (handle_modal_actions td od q p resp).msg ≠ "") ∧
      (∀ e : String, resp = Resp.exn e →
        (handle_modal_actions td od q p resp).opened = none ∧
        (handle_modal_actions td od q p resp).msg ≠ "")) := by
  intro td od q p resp req hreq
  cases od with
  | none => simp [handle_modal_actions] at hreq
  | some o =>
    by_cases hc : pyTruthyS o.clOrdId = false
    · simp [handle_modal_actions, hc] at hreq
    · by_cases ht1 : td = "modal-cancel-btn"
      · refine ⟨?_, ?_, ?_⟩
        · intro h
          subst h
          simp [handle_modal_actions, hc, ht1]
        · intro n h hn
          subst h
          simp [handle_modal_actions, hc, ht1, hn]
        · intro e h
          subst h
          simp [handle_modal_actions, hc, ht1]
          exact errorMsg_ne_empty e
      · by_cases ht2 : td = "modal-amend-btn"
        · by_cases hqp : pyTruthyQ q = false ∧ pyTruthyQ p = false
          · simp [handle_modal_actions, hc, ht1, ht2, hqp] at hreq
          · refine ⟨?_, ?_, ?_⟩
            · intro h
              subst h
              simp [handle_modal_actions, hc, ht1, ht2, hqp]
            · intro n h hn
              subst h
              simp [handle_modal_actions, hc, ht1, ht2, hqp, hn]
            · intro e h
              subst h
              simp [handle_modal_actions, hc, ht1, ht2, hqp]
              exact errorMsg_ne_empty e
        · simp [handle_modal_actions, hc, ht1, ht2] at hreq

/-- Witness for C5: a successful cancel on the sample row closes the
dialog. -/
theorem C5_witness :
    (handle_modal_actions "modal-cancel-btn" (some rowNew) none none
      (Resp.status 200)).opened = some false :=
  (C5_success_closes_dialog "modal-cancel-btn" (some rowNew) none none (Resp.status 200)
    (ModalRequest.delete "A1" (some "AAPL") (some "BUY")) (by decide)).1 rfl

/-- C6: the actions dialog never opens from a row whose actions marker is
empty; a click on the actions cell of such a row is the no-action outcome
(every output no_update, so no dialog state changes and no error is
raised), and conversely whenever the dialog does open the clicked row's
marker is non-empty. -/
theorem C6_no_dialog_for_empty_marker :
    (∀ (cell : ActiveCell) (rows : List NormRow) (i : ℕ) (h : i < rows.length),
      cell.column_id = some "actions" → cell.row = some i →
      (rows.get ⟨i, h⟩).actions = "" →
      open_actions_modal (some cell) (some rows) = none) ∧
    (∀ (ac : Option ActiveCell) (d : Option (List NormRow)) (m : ModalOpen),
      open_actions_modal ac d = some m → m.row.actions ≠ "") := by
  constructor
  · intro cell rows i h hcol hrow hact
    have hne : ¬ rows = [] := by
      intro hnil
      subst hnil
      simp at h
    have hact2 : rows[i].actions = "" := hact
    simp [open_actions_modal, hne, hcol, hrow, h, hact2]
  · intro ac d m hsome
    rcases ac with _ | cell
    · simp [open_actions_modal] at hsome
    rcases d with _ | rows
    · simp [open_actions_modal] at hsome
    by_cases hne : rows = []
    · simp [open_actions_modal, hne] at hsome
    by_cases hcol : cell.column_id ≠ some "actions"
    · simp [open_actions_modal, hne, hcol] at hsome
    rcases hrow : cell.row with _ | i
    · simp [open_actions_modal, hne, hcol, hrow] at hsome
    by_cases hlt : i < rows.length
    · by_cases hact : rows[i].actions = ""
      · simp [open_actions_modal, hne, hcol, hrow, hlt, hact] at hsome
      · simp [open_actions_modal, hne, hcol, hrow, hlt, hact] at hsome
        rw [← hsome]
        simpa using hact
    · simp [open_actions_modal, hne, hcol, hrow, hlt] at hsome

/-- Witness for C6: clicking the actions cell of the FILLED sample row is a
no-op. -/
theorem C6_witness :
    open_actions_modal (some { column_id := some "actions", row := some 0 })
      (some [rowFilled]) = none :=
  C6_no_dialog_for_empty_marker.1 { column_id := some "actions", row := some 0 }
    [rowFilled] 0 (by decide) rfl rfl (by decide)

/-- C10: in both amend flows a supplied value of 0 behaves exactly like an
absent value: the callback result is unchanged when some 0 is replaced by
none in either amend field, an amend whose only supplied values are zeros
is rejected locally, and a zero price is omitted from the payload even when
a new quantity is present. -/
theorem C10_zero_treated_as_absent :
    (∀ (td : String) (od : Option NormRow) (p : Option ℚ) (resp : Resp),
      handle_modal_actions td od (some 0) p resp = handle_modal_actions td od none p resp) ∧
    (∀ (td : String) (od : Option NormRow) (q : Option ℚ) (resp : Resp),
      handle_modal_actions td od q (some 0) resp = handle_modal_actions td od q none resp) ∧
    (∀ (td : String) (cid sym sd : Option String) (p : Option ℚ) (resp : Resp),
      handle_order_action td cid sym sd (some 0) p resp =
        handle_order_action td cid sym sd none p resp) ∧
    (∀ (td : String) (cid sym sd : Option String) (q : Option ℚ) (resp : Resp),
      handle_order_action td cid sym sd q (some 0) resp =
        handle_order_action td cid sym sd q none resp) ∧
    handle_modal_actions "modal-amend-btn" (some rowNew) (some 0) (some 0)
        (Resp.status 200) =
      { request := none, msg := "Enter new quantity or price", opened := none } ∧
    (handle_modal_actions "modal-amend-btn" (some rowNew) (some (mkRat 200 1)) (some 0)
        (Resp.status 200)).request =
      some (ModalRequest.put "A1"
        { symbol := some "AAPL", side := some "BUY",
          newQuantity := some 200, newPrice := none }) := by
  refine ⟨?_, ?_, ?_, ?_, by decide, by decide⟩
  · intro td od p resp
    cases od <;> simp [handle_modal_actions, pyTruthyQ]
  · intro td od q resp
    cases od <;> simp [handle_modal_actions, pyTruthyQ]
  · intro td cid sym sd p resp
    simp [handle_order_action, pyTruthyQ]
  · intro td cid sym sd q resp
    simp [handle_order_action, pyTruthyQ]

/-- Witness for C10: replacing a zero new-quantity by an absent one leaves
the concrete amend invocation unchanged. -/
theorem C10_witness :
    handle_modal_actions "modal-amend-btn" (some rowNew) (some 0) none (Resp.status 200) =
      handle_modal_actions "modal-amend-btn" (some rowNew) none none (Resp.status 200) :=
  C10_zero_treated_as_absent.1 "modal-amend-btn" (some rowNew) none (Resp.status 200)
